import Mathlib

/-!
Verification development for the noise-protocol session engine in
`src/rust/cjdns_sys/src/crypto/crypto_noise.rs`.

The engine's own code (session registry, session creation, ingress
dispatcher, auth table, per-session endpoints) is embedded shallowly as
executable Lean functions.  External collaborators — the boringtun `Tunn`
operations, the rate limiter, `parse_handshake_anon`, the `cnoise` framing
codec, `ip6_from_key` and `hash_password` — are passed in as an `Ext`
record of oracle functions: the theorems quantify over their results, so
they hold for every behaviour of the external library.  Machine integers
are `Nat` with explicit `% 2^w` where wrapping matters; byte buffers are
`List Nat`.
-/

namespace CjdnsNoise

/-- Big-endian byte encoding of the low 32 bits of a natural number
(`u32::to_be` written into a buffer on a little-endian machine). -/
def be32 (n : Nat) : List Nat :=
  [n / 2 ^ 24 % 256, n / 2 ^ 16 % 256, n / 2 ^ 8 % 256, n % 256]

/-- Little-endian byte encoding of the low 32 bits of a natural number
(a raw `u32` written into a buffer on a little-endian machine). -/
def le32 (n : Nat) : List Nat :=
  [n % 256, n / 2 ^ 8 % 256, n / 2 ^ 16 % 256, n / 2 ^ 24 % 256]

/-- Association-list lookup, modelling `HashMap::get`. -/
def alGet [DecidableEq κ] : List (κ × α) → κ → Option α
  | [], _ => none
  | (k, v) :: rest, key => if k = key then some v else alGet rest key

/-- Association-list insertion, modelling `HashMap::insert`: returns the
previous value under the key (if any) together with the updated map. -/
def alInsert [DecidableEq κ] : List (κ × α) → κ → α → Option α × List (κ × α)
  | [], key, val => (none, [(key, val)])
  | (k, v) :: rest, key, val =>
    if k = key then (some v, (key, val) :: rest)
    else
      let r := alInsert rest key val
      (r.1, (k, v) :: r.2)

/-- Association-list removal, modelling `HashMap::remove` (keys are unique). -/
def alRemove [DecidableEq κ] : List (κ × α) → κ → List (κ × α)
  | [], _ => []
  | (k, v) :: rest, key => if k = key then rest else (k, v) :: alRemove rest key

/-- `AuthType` from `crypto_header`: the two password-authentication forms. -/
inductive AuthType where
  | One
  | Two
  deriving DecidableEq, Repr

/-- `User` record of the auth table (`crypto_noise.rs` lines 90-95). -/
structure User where
  secret : List Nat
  login : List Nat
  restricted_to_ip6 : Option (List Nat)
  deriving DecidableEq, Repr

/-- State of a boringtun `Tunn` visible to this module: whether the
handshake is established and the currently installed pre-shared key. -/
structure Tunn where
  established : Bool
  preshared : Option (List Nat)
  deriving DecidableEq, Repr

/-- `InitiatorSessionMut` (`crypto_noise.rs` lines 175-179). -/
structure InitiatorSessionMut where
  auth : Option (List Nat)
  peer_recv_index : Option Nat
  additional_data : List Nat
  deriving DecidableEq, Repr

/-- `InitiatorSession` (`crypto_noise.rs` lines 198-201): the mutable part
plus the atomic last-seen peer receive-index cache (a `usize`). -/
structure InitiatorSession where
  m : InitiatorSessionMut
  peer_recv_index_atomic : Nat
  deriving DecidableEq, Repr

/-- `SessionInner` (`crypto_noise.rs` lines 203-218).  The two `IfacePvt`
endpoints are modelled as output effects rather than stored handles, and
the back-reference `ca` is passed explicitly. -/
structure SessionInner where
  tunnel : Tunn
  initiator : Option InitiatorSession
  her_pubkey : List Nat
  her_ip6 : List Nat
  require_auth : Bool
  deriving DecidableEq, Repr

/-- `Session` (`crypto_noise.rs` lines 327-342), the outer handle. -/
structure Session where
  display_name : String
  inner : SessionInner
  her_ip6 : List Nat
  her_pubkey : List Nat
  id : Nat
  deriving DecidableEq, Repr

/-- `CryptoNoise` (`crypto_noise.rs` lines 97-110): auth table, session
registry and index counter.  The long-term keys and the rate limiter live
in the `Ext` oracle record. -/
structure CryptoNoise where
  users : List (List Nat × User)
  sessions : List (Nat × SessionInner)
  next_sess_index : Nat
  deriving DecidableEq, Repr

/-- `RTypes_CryptoAuth_State_t` as used here: `get_state` only ever
returns `Init` or `Established` (`crypto_noise.rs` lines 236-243). -/
inductive State where
  | Init
  | Established
  deriving DecidableEq, Repr

/-- `RTypes_CryptoAuth2_TryHandshake_Code_t` variants used by the code. -/
inductive TryMsgReply where
  | Done
  | ReplyToPeer
  | RecvPlaintext
  | Error
  deriving DecidableEq, Repr

/-- A send on one of the two session endpoints. -/
inductive Effect where
  | plainSend (b : List Nat)
  | cipherSend (b : List Nat)
  deriving DecidableEq, Repr

/-- boringtun `TunnResult`; the error carries the numeric value of the
`WireGuardError` (the code computes `e as u32`). -/
inductive TunnResult where
  | Done
  | Err (e : Nat)
  | WriteToNetwork (packet : List Nat)
  | CustomData (buf : List Nat)
  | WriteToTunnelV4
  | WriteToTunnelV6
  deriving DecidableEq, Repr

/-- boringtun `noise::Packet`; the payload of `HandshakeInit` is an opaque
tag used only to key the oracle functions. -/
inductive Packet where
  | HandshakeInit (d : Nat)
  | HandshakeResponse
  | PacketCookieReply
  | PacketData
  deriving DecidableEq, Repr

/-- Result of `parse_handshake_anon`: the recovered peer static key and
the optional additional-data block. -/
structure ValidHandshake where
  peer_static_public : List Nat
  additional_data : Option (List Nat)
  deriving DecidableEq, Repr

/-- Result of `cnoise::parse_additional_data`. -/
structure AddData where
  cjdns_psk : Option (List Nat)
  prev_sess_id : Option Nat
  deriving DecidableEq, Repr

/-- Routing fields returned by `cnoise::wg_from_cjdns`. -/
structure WgRes where
  our_index : Option Nat
  peer_index : Option Nat
  msg_type : Nat
  deriving DecidableEq, Repr

/-- Outcome of `RateLimiter::verify_packet` as consumed by the code:
a parsed packet, a cookie to send back, or any other error. -/
inductive VerifyRes where
  | ok (p : Packet)
  | cookie (c : List Nat)
  | err
  deriving DecidableEq, Repr

/-- `DecryptErr` variants from `crypto_auth` used in this module. -/
inductive DecryptErr where
  | Runt
  | NoSession
  | InvalidPacket
  | StrayKey
  | HandshakeDecryptFailed
  | UnrecognizedAuth
  | AuthRequired
  | WrongPermPubkey
  | IpRestricted
  deriving DecidableEq, Repr

/-- Errors surfaced by the fallible operations: a `DecryptError` or an
`anyhow` message (also used to model a panic as a terminal outcome). -/
inductive Err where
  | decrypt (e : DecryptErr)
  | other (s : String)
  deriving DecidableEq, Repr

/-- Oracle record for the external collaborators (boringtun, the `cnoise`
codec, `ip6_from_key`, `hash_password`, the numeric values of the rtypes
state enum).  The engine's theorems quantify over this record. -/
structure Ext where
  ip6_from_key : List Nat → List Nat
  tunn_new : Nat → Except String Tunn
  wg_from_cjdns : List Nat → Except Err (WgRes × List Nat)
  cjdns_from_wg : List Nat → Except Err (List Nat)
  decapsulate : Tunn → List Nat → TunnResult
  encapsulate : Tunn → List Nat → Option (List Nat) → TunnResult
  verify_packet : List Nat → VerifyRes
  parse_handshake_anon : Packet → Option ValidHandshake
  parse_additional_data : List Nat → Except Err AddData
  handle_verified_packet : Tunn → Packet → ValidHandshake → TunnResult
  hash_password : List Nat → List Nat → AuthType → List Nat × List Nat
  state_code : State → Nat

/-- `compute_auth` (`crypto_noise.rs` lines 557-572): derive the secret
and the challenge from an optional password and login; no password means
no authenticator.  `hash_password` is the external password hasher. -/
def compute_auth (ext : Ext) (password : Option (List Nat)) (login : Option (List Nat)) :
    Option (List Nat) × Option (List Nat) :=
  match password with
  | some pw =>
    let la : List Nat × AuthType :=
      match login with
      | some l => (l, AuthType.Two)
      | none => ([], AuthType.One)
    let sc := ext.hash_password la.1 pw la.2
    (some sc.1, some sc.2)
  | none => (none, none)

/-- ASCII bytes of the default login `"Anon #N"` built in `add_user_ipv6`
when no login is supplied. -/
def anonLogin (n : Nat) : List Nat :=
  "Anon #".toList.map Char.toNat ++ (Nat.toDigits 10 n).map Char.toNat

/-- `CryptoNoise::add_user_ipv6` (`crypto_noise.rs` lines 140-169): insert
a type-One entry (empty login) when a login was given, and always a
type-Two-branch entry computed from the supplied login option. -/
def add_user_ipv6 (ext : Ext) (ca : CryptoNoise) (password : List Nat)
    (login : Option (List Nat)) (ipv6 : Option (List Nat)) : CryptoNoise :=
  let login0 : List Nat :=
    match login with
    | some l => l
    | none => anonLogin ca.users.length
  let users0 := ca.users
  let users1 :=
    if login.isSome then
      let sc := compute_auth ext (some password) none
      (alInsert users0 (sc.2.getD [])
        { secret := sc.1.getD [], login := login0, restricted_to_ip6 := ipv6 }).2
    else users0
  let sc := compute_auth ext (some password) login
  let users2 :=
    (alInsert users1 (sc.2.getD [])
      { secret := sc.1.getD [], login := login0, restricted_to_ip6 := ipv6 }).2
  { ca with users := users2 }

/-- `CryptoNoise::get_auth` (`crypto_noise.rs` lines 170-172). -/
def get_auth (ca : CryptoNoise) (ch : List Nat) : Option User :=
  alGet ca.users ch

/-- Modelled from the spec: `cnoise::push_ent` for a `PrevSessIndex(u32)`
entity is code of this repository that is not under `src/`; the spec says
entries are serialized into a framing TLV structure pushed onto the
message.  A representative tag byte plus the big-endian index is used;
only the layout discipline matters to the claims. -/
def pushPrevSessIndex (pi : Nat) (msg : List Nat) : List Nat :=
  (1 :: be32 pi) ++ msg

/-- Modelled from the spec: `cnoise::push_ent` for a `CjdnsPsk` entity
(32-byte authenticator), code not under `src/`; representative TLV. -/
def pushCjdnsPsk (ch : List Nat) (msg : List Nat) : List Nat :=
  (2 :: ch) ++ msg

/-- Modelled from the spec: `cnoise::pad(msg, 4)` is code of this
repository not under `src/`; the spec says the block is zero-padded to
4-byte alignment. -/
def pad4 (b : List Nat) : List Nat :=
  b ++ List.replicate ((4 - b.length % 4) % 4) 0

/-- `InitiatorSessionMut::update_additional` (`crypto_noise.rs` lines
180-197): rebuild the additional-data block from the optional peer
receive-index and authenticator, padding to 4-byte alignment when
non-empty. -/
def update_additional (m : InitiatorSessionMut) : InitiatorSessionMut :=
  let msg : List Nat := []
  let msg :=
    match m.peer_recv_index with
    | some pi => pushPrevSessIndex pi msg
    | none => msg
  let msg :=
    match m.auth with
    | some ch => pushCjdnsPsk ch msg
    | none => msg
  let msg := if msg.length > 0 then pad4 msg else msg
  { m with additional_data := msg }

/-- `SessionInner::update_peer_index` (`crypto_noise.rs` lines 219-234):
no-op on responders; on initiators swap the atomic cache and, when the
value changed, rewrite the additional-data block. -/
def update_peer_index (inner : SessionInner) (peer_index : Nat) : SessionInner :=
  match inner.initiator with
  | none => inner
  | some init =>
    let old := init.peer_recv_index_atomic
    if old = peer_index then
      { inner with initiator := some { init with peer_recv_index_atomic := peer_index } }
    else
      { inner with initiator := some (InitiatorSession.mk
          (update_additional { init.m with peer_recv_index := some peer_index })
          peer_index) }

/-- `SessionInner::get_state` (`crypto_noise.rs` lines 236-243). -/
def get_state (inner : SessionInner) : State :=
  if inner.tunnel.established then State.Established else State.Init

/-- `SessionInner::send_crypto` (`crypto_noise.rs` lines 245-250): check
4-byte alignment, re-frame with `cjdns_from_wg`, emit on the ciphertext
endpoint.  Alignment of a message is modelled from the spec as the length
being a multiple of 4 (the `Message` type is not under `src/`; the spec
speaks only of multiples of 4). -/
def send_crypto (ext : Ext) (msg : List Nat) : Except Err (List Nat × List Effect) :=
  if msg.length % 4 ≠ 0 then Except.error (Err.other "Alignment fault")
  else
    match ext.cjdns_from_wg msg with
    | Except.error e => Except.error e
    | Except.ok m2 => Except.ok (m2, [Effect.cipherSend m2])

/-- `Session::new1` (`crypto_noise.rs` lines 350-417): reject the all-zero
key and any key whose derived address does not begin with `0xfc`; build
the tunnel and the session, with `id` initialized to `0xffffffff`. -/
def new1 (ext : Ext) (her_pub_key : List Nat) (display_name : String)
    (is_initiator require_auth : Bool) (index : Nat) : Except Err Session :=
  if her_pub_key = List.replicate 32 0 then
    Except.error (Err.other
      "in order to create a noise session, the public key of the other party must be known")
  else
    let her_ip6 := ext.ip6_from_key her_pub_key
    if her_ip6.getD 0 0 ≠ 0xfc then Except.error (Err.other "invalid public key")
    else
      match ext.tunn_new index with
      | Except.error e => Except.error (Err.other s!"Failed to create Tunn: {e}")
      | Except.ok tunnel =>
        let initiator : Option InitiatorSession :=
          if is_initiator then
            some { m := { additional_data := [], auth := none, peer_recv_index := none },
                   peer_recv_index_atomic := 2 ^ 64 - 1 }
          else none
        Except.ok
          { display_name := display_name,
            inner := { tunnel := tunnel, initiator := initiator,
                       her_pubkey := her_pub_key, her_ip6 := her_ip6,
                       require_auth := require_auth },
            her_ip6 := her_ip6, her_pubkey := her_pub_key,
            id := 0xffffffff }

/-- `Session::new0` (`crypto_noise.rs` lines 419-449): allocate an index
by post-incrementing the counter (truncated to `u32`), build the session,
insert its inner state; on a collision restore the occupant and retry.
The loop is given explicit fuel; the model also returns the index at
which the inner state was inserted, and the updated registry. -/
def new0 (ext : Ext) : Nat → CryptoNoise → List Nat → String → Bool → Bool →
    Except Err (Session × Nat × CryptoNoise)
  | 0, _, _, _, _, _ => Except.error (Err.other "out of fuel")
  | fuel + 1, ca, pk, dn, is_init, req_auth =>
    let index := ca.next_sess_index % 2 ^ 32
    let ca1 := { ca with next_sess_index := (ca.next_sess_index + 1) % 2 ^ 64 }
    match new1 ext pk dn is_init req_auth index with
    | Except.error e => Except.error e
    | Except.ok sess =>
      let r := alInsert ca1.sessions index sess.inner
      match r.1 with
      | some x =>
        new0 ext fuel { ca1 with sessions := (alInsert r.2 index x).2 } pk dn is_init req_auth
      | none => Except.ok (sess, index, { ca1 with sessions := r.2 })

/-- `Session::new` (`crypto_noise.rs` lines 451-457): outbound initiator. -/
def session_new (ext : Ext) (fuel : Nat) (ca : CryptoNoise) (pk : List Nat)
    (display_name : String) : Except Err (Session × Nat × CryptoNoise) :=
  new0 ext fuel ca pk display_name true false

/-- `impl Drop for Session` (`crypto_noise.rs` lines 343-347): remove the
registry entry under the session's own `id`. -/
def sessionDrop (ca : CryptoNoise) (s : Session) : CryptoNoise :=
  { ca with sessions := alRemove ca.sessions s.id }

/-- `SessionTrait::set_auth` (`crypto_noise.rs` lines 461-471): initiator
only; recompute the authenticator, rewrite the additional data and
install the secret as the tunnel's pre-shared key. -/
def set_auth (ext : Ext) (inner : SessionInner) (password login : Option (List Nat)) :
    SessionInner :=
  match inner.initiator with
  | none => inner
  | some init =>
    let sc := compute_auth ext password login
    { inner with
      initiator := some { init with m := update_additional { init.m with auth := sc.2 } },
      tunnel := { inner.tunnel with preshared := sc.1 } }

/-- `PlaintextRecv::recv` (`crypto_noise.rs` lines 253-288): reject empty
and misaligned plaintext, feed the tunnel (with the initiator's
additional data when present), and emit any produced packet through
`send_crypto`.  Returns the emitted effects alongside the final buffer. -/
def plaintextRecv (ext : Ext) (inner : SessionInner) (msg : List Nat) :
    List Effect × Except Err (List Nat) :=
  if msg.length = 0 then
    ([], Except.error (Err.other "Zero-length message is prohibited"))
  else if msg.length % 4 ≠ 0 then
    ([], Except.error (Err.other "Alignment fault"))
  else
    let add : Option (List Nat) :=
      match inner.initiator with
      | some init => some init.m.additional_data
      | none => none
    let res := ext.encapsulate inner.tunnel msg add
    match res with
    | TunnResult.Done => ([], Except.ok [])
    | TunnResult.Err _ => ([], Except.error (Err.other "Encapsulate error"))
    | TunnResult.WriteToNetwork packet =>
      if packet.length = 0 then ([], Except.ok packet)
      else
        match send_crypto ext packet with
        | Except.error e => ([], Except.error e)
        | Except.ok r => (r.2, Except.ok r.1)
    | _ => ([], Except.error (Err.other "Unexpected result from encapsulate"))

/-- The additional-data / authenticator step of `handle_init_msg`
(`crypto_noise.rs` lines 724-745): parse the block when present, resolve
the authenticator against the auth table, keep the previous session id. -/
def resolveUser (ext : Ext) (ca : CryptoNoise) (vh : ValidHandshake) :
    Except Err (Option User × Option Nat) :=
  match vh.additional_data with
  | none => Except.ok (none, none)
  | some ad =>
    match ext.parse_additional_data ad with
    | Except.error e => Except.error e
    | Except.ok add =>
      match add.cjdns_psk with
      | none => Except.ok (none, add.prev_sess_id)
      | some psk =>
        match get_auth ca psk with
        | some user => Except.ok (some user, add.prev_sess_id)
        | none => Except.error (Err.decrypt DecryptErr.UnrecognizedAuth)

/-- The resumption step of `handle_init_msg` (`crypto_noise.rs` lines
752-765): a present `PrevSessIndex` that resolves to a registered session
must carry the same permanent public key; on success the session is
returned with its registry key. -/
def resolveSess (ca : CryptoNoise) (prev : Option Nat) (vh : ValidHandshake) :
    Except Err (Option (Nat × SessionInner)) :=
  match prev with
  | none => Except.ok none
  | some psi =>
    match alGet ca.sessions psi with
    | none => Except.ok none
    | some s =>
      if s.her_pubkey ≠ vh.peer_static_public then
        Except.error (Err.decrypt DecryptErr.WrongPermPubkey)
      else Except.ok (some (psi, s))

/-- The IP-restriction and pre-shared-key step of `handle_init_msg`
(`crypto_noise.rs` lines 778-787). -/
def applyUserPsk (user_opt : Option User) (inner : SessionInner) :
    Except Err SessionInner :=
  match user_opt with
  | some user =>
    match user.restricted_to_ip6 with
    | some ip6 =>
      if ip6 ≠ inner.her_ip6 then Except.error (Err.decrypt DecryptErr.IpRestricted)
      else Except.ok { inner with tunnel := { inner.tunnel with preshared := some user.secret } }
    | none =>
      Except.ok { inner with tunnel := { inner.tunnel with preshared := some user.secret } }
  | none => Except.ok { inner with tunnel := { inner.tunnel with preshared := none } }

/-- Debug rendering of a login byte string (`ByteString::into_debug_string`). -/
def into_debug_string (l : List Nat) : String :=
  toString l

/-- Display name chosen for a responder session (`crypto_noise.rs` lines
769-773). -/
def displayOf (user_opt : Option User) : String :=
  match user_opt with
  | some u => into_debug_string u.login
  | none => "<anon>"

/-- Tail of `handle_init_msg` (`crypto_noise.rs` lines 767-799) once the
session inner state and its registry key are fixed: apply the IP
restriction and pre-shared key, write the updated inner state back, and
hand the verified packet to the tunnel expecting `WriteToNetwork`. -/
def finishGo (ext : Ext) (packet : Packet) (vh : ValidHandshake)
    (user_opt : Option User) (key : Nat) (inner : SessionInner)
    (sess_outer : Option Session) (ca1 : CryptoNoise) :
    Except Err (Option Session × List Nat × CryptoNoise) :=
  match applyUserPsk user_opt inner with
  | Except.error e => Except.error e
  | Except.ok inner2 =>
    let ca2 := { ca1 with sessions := (alInsert ca1.sessions key inner2).2 }
    let souter2 : Option Session :=
      match sess_outer with
      | some s => some { s with inner := inner2 }
      | none => none
    match ext.handle_verified_packet inner2.tunnel packet vh with
    | TunnResult.WriteToNetwork p => Except.ok (souter2, p, ca2)
    | _ => Except.error (Err.decrypt DecryptErr.HandshakeDecryptFailed)

/-- Session selection of `handle_init_msg` (`crypto_noise.rs` lines
767-776): reuse the resumed session, otherwise create a fresh responder
session with the recovered peer static key. -/
def finishInit (ext : Ext) (fuel : Nat) (ca : CryptoNoise) (packet : Packet)
    (vh : ValidHandshake) (user_opt : Option User)
    (osess : Option (Nat × SessionInner)) (require_auth : Bool) :
    Except Err (Option Session × List Nat × CryptoNoise) :=
  match osess with
  | some ks => finishGo ext packet vh user_opt ks.1 ks.2 none ca
  | none =>
    match new0 ext fuel ca vh.peer_static_public (displayOf user_opt) false require_auth with
    | Except.error e => Except.error e
    | Except.ok r => finishGo ext packet vh user_opt r.2.1 r.1.inner (some r.1) r.2.2

/-- `handle_init_msg` (`crypto_noise.rs` lines 666-800): rate-limiter
admission (cookie under load), packet-kind gate, anonymous handshake
parse, authenticator lookup, `require_auth` policy, resumption, session
creation and the handshake reply. -/
def handle_init_msg (ext : Ext) (fuel : Nat) (ca : CryptoNoise) (msg : List Nat)
    (require_auth : Bool) : Except Err (Option Session × List Nat × CryptoNoise) :=
  match ext.verify_packet msg with
  | VerifyRes.cookie c => Except.ok (none, c, ca)
  | VerifyRes.err => Except.error (Err.decrypt DecryptErr.InvalidPacket)
  | VerifyRes.ok packet =>
    match packet with
    | Packet.HandshakeResponse => Except.error (Err.decrypt DecryptErr.StrayKey)
    | Packet.PacketCookieReply => Except.error (Err.decrypt DecryptErr.StrayKey)
    | Packet.PacketData => Except.error (Err.decrypt DecryptErr.NoSession)
    | Packet.HandshakeInit d =>
      match ext.parse_handshake_anon (Packet.HandshakeInit d) with
      | none => Except.error (Err.decrypt DecryptErr.HandshakeDecryptFailed)
      | some vh =>
        match resolveUser ext ca vh with
        | Except.error e => Except.error e
        | Except.ok ur =>
          if ur.1.isNone && require_auth then
            Except.error (Err.decrypt DecryptErr.AuthRequired)
          else
            match resolveSess ca ur.2 vh with
            | Except.error e => Except.error e
            | Except.ok osess =>
              finishInit ext fuel ca (Packet.HandshakeInit d) vh ur.1 osess require_auth

/-- The error envelope built by `handle_incoming` on a decapsulation
error (`crypto_noise.rs` lines 604-621).  `Message::push` prepends, so
reading the buffer front to back the blocks appear in the reverse order
of the pushes: little-endian `e + 1024`, the first 16 bytes of the
re-framed ciphertext, big-endian `e + 1024`, big-endian state code. -/
def errEnvelope (stateCode e : Nat) (msg2 : List Nat) : List Nat :=
  le32 (e % 2 ^ 32 + 1024) ++ msg2.take 16 ++ be32 (e % 2 ^ 32 + 1024) ++ be32 stateCode

/-- `handle_incoming` (`crypto_noise.rs` lines 583-664).  For a frame
addressed to a known session: decapsulate and forward per the tunnel's
verdict; an error produces the error envelope on the plaintext endpoint
without touching the registry.  For a frame without `our_index`: defer to
`handle_init_msg`, then re-frame the reply.  `Message` semantics
(`push` prepends; not under `src/`) are modelled from the spec; the
`copy_from_slice` panic on a short re-framed buffer is modelled as a
terminal error. -/
def handle_incoming (ext : Ext) (fuel : Nat) (ca : CryptoNoise) (msg : List Nat)
    (require_auth : Bool) :
    List Effect × Except Err (TryMsgReply × Option Session × List Nat × CryptoNoise) :=
  match ext.wg_from_cjdns msg with
  | Except.error e => ([], Except.error e)
  | Except.ok (wg, msg1) =>
    match wg.our_index with
    | some index =>
      match alGet ca.sessions index with
      | none => ([], Except.error (Err.decrypt DecryptErr.NoSession))
      | some sess =>
        match ext.decapsulate sess.tunnel msg1 with
        | TunnResult.Err e =>
          match ext.cjdns_from_wg msg1 with
          | Except.error er => ([], Except.error er)
          | Except.ok msg2 =>
            if msg2.length < 16 then
              ([], Except.error (Err.other "panic: copy_from_slice length mismatch"))
            else
              let env := errEnvelope (ext.state_code (get_state sess)) e msg2
              ([Effect.plainSend env], Except.ok (TryMsgReply.Done, none, env, ca))
        | TunnResult.Done =>
          let ca2 :=
            match wg.peer_index with
            | some pi =>
              { ca with sessions := (alInsert ca.sessions index (update_peer_index sess pi)).2 }
            | none => ca
          ([], Except.ok (TryMsgReply.Done, none, [], ca2))
        | TunnResult.WriteToNetwork buf =>
          let ca2 :=
            match wg.peer_index with
            | some pi =>
              { ca with sessions := (alInsert ca.sessions index (update_peer_index sess pi)).2 }
            | none => ca
          match send_crypto ext buf with
          | Except.error e => ([], Except.error e)
          | Except.ok r => (r.2, Except.ok (TryMsgReply.Done, none, r.1, ca2))
        | TunnResult.CustomData buf =>
          let out := le32 0 ++ buf
          ([Effect.plainSend out], Except.ok (TryMsgReply.Done, none, out, ca))
        | TunnResult.WriteToTunnelV4 =>
          ([], Except.error (Err.other "panic: WG unexpected IP packet"))
        | TunnResult.WriteToTunnelV6 =>
          ([], Except.error (Err.other "panic: WG unexpected IP packet"))
    | none =>
      match handle_init_msg ext fuel ca msg1 require_auth with
      | Except.error e => ([], Except.error e)
      | Except.ok (ret, buf, ca2) =>
        match ext.cjdns_from_wg buf with
        | Except.error e => ([], Except.error e)
        | Except.ok buf2 =>
          if buf2.length % 4 ≠ 0 then ([], Except.error (Err.other "Alignment fault"))
          else ([], Except.ok (TryMsgReply.ReplyToPeer, ret, buf2, ca2))

/-- `CiphertextRecv::recv` (`crypto_noise.rs` lines 289-325): require at
least the 16-byte peer-address prefix, strip it, dispatch through
`handle_incoming`, and refuse any outcome that surfaces a new session or
is neither `Done` nor `ReplyToPeer`. -/
def ciphertextRecv (ext : Ext) (fuel : Nat) (inner : SessionInner) (ca : CryptoNoise)
    (m : List Nat) : List Effect × Except Err CryptoNoise :=
  if m.length < 16 then ([], Except.error (Err.decrypt DecryptErr.Runt))
  else
    match handle_incoming ext fuel ca (m.drop 16) inner.require_auth with
    | (effs, Except.error e) => (effs, Except.error e)
    | (effs, Except.ok (r, os, buf, ca2)) =>
      match os with
      | some _ =>
        (effs, Except.error (Err.other
          "DROP packet associated with existing session trying to create a new one"))
      | none =>
        match r with
        | TryMsgReply.ReplyToPeer =>
          match send_crypto ext buf with
          | Except.error e => (effs, Except.error e)
          | Except.ok sr => (effs ++ sr.2, Except.ok ca2)
        | TryMsgReply.Done => (effs, Except.ok ca2)
        | TryMsgReply.Error => (effs, Except.error (Err.other "Unexpected reply"))
        | TryMsgReply.RecvPlaintext => (effs, Except.error (Err.other "Unexpected reply"))

/-- Definition following the spec's words (§6, "Error envelope to
plaintext side"): 4 bytes big-endian session state, 4 bytes big-endian
`e + 1024`, 16 bytes of original ciphertext, 4 bytes little-endian
`e + 1024`.  Stated for comparison with `errEnvelope`, the envelope the
code actually builds. -/
def specErrorEnvelope (stateCode ee : Nat) (first16 : List Nat) : List Nat :=
  be32 stateCode ++ be32 ee ++ first16 ++ le32 ee

/-- A concrete oracle record used to evaluate the model on explicit
inputs: every derived address starts with `0xfc`, framing is the
identity, the tunnel is fresh, and the password hasher tags the
challenge with the auth type. -/
def ext0 : Ext :=
  { ip6_from_key := fun _ => 0xfc :: List.replicate 15 0,
    tunn_new := fun _ => Except.ok { established := false, preshared := none },
    wg_from_cjdns := fun b =>
      Except.ok ({ our_index := none, peer_index := none, msg_type := 0 }, b),
    cjdns_from_wg := fun b => Except.ok b,
    decapsulate := fun _ _ => TunnResult.Done,
    encapsulate := fun _ _ _ => TunnResult.Done,
    verify_packet := fun _ => VerifyRes.err,
    parse_handshake_anon := fun _ => none,
    parse_additional_data := fun _ => Except.error (Err.other "bad additional data"),
    handle_verified_packet := fun _ _ _ => TunnResult.Done,
    hash_password := fun l p t =>
      (p ++ l, (match t with | AuthType.One => 1 | AuthType.Two => 2) :: l ++ p),
    state_code := fun s => match s with | State.Init => 0 | State.Established => 2 }

/-- A fresh registry: empty auth table, no sessions, counter at 1. -/
def ca0 : CryptoNoise := { users := [], sessions := [], next_sess_index := 1 }

/-- A concrete non-zero peer public key. -/
def pk1 : List Nat := List.replicate 32 1

/-- The inner state `Session::new1` builds for `pk1` under `ext0`. -/
def innerA : SessionInner :=
  { tunnel := { established := false, preshared := none },
    initiator := some { m := { auth := none, peer_recv_index := none, additional_data := [] },
                        peer_recv_index_atomic := 2 ^ 64 - 1 },
    her_pubkey := pk1, her_ip6 := 0xfc :: List.replicate 15 0, require_auth := false }

/-- The session handle `Session::new0` returns for `pk1` under `ext0`. -/
def sessA : Session :=
  { display_name := "s", inner := innerA, her_ip6 := 0xfc :: List.replicate 15 0,
    her_pubkey := pk1, id := 0xffffffff }

/-- The registry after that creation: the inner state sits at index 1. -/
def caA : CryptoNoise := { users := [], sessions := [(1, innerA)], next_sess_index := 2 }

/-- Oracle record whose derived addresses do not start with `0xfc`. -/
def extBadIp : Ext := { ext0 with ip6_from_key := fun _ => List.replicate 16 0 }

/-- Oracle record driving the decapsulation-error path: the frame is
routed to session index 1 and the tunnel reports error code 1. -/
def ext3 : Ext :=
  { ext0 with
    wg_from_cjdns := fun b =>
      Except.ok ({ our_index := some 1, peer_index := none, msg_type := 4 }, b),
    decapsulate := fun _ _ => TunnResult.Err 1,
    cjdns_from_wg := fun _ => Except.ok (List.replicate 16 9),
    state_code := fun s => match s with | State.Init => 7 | State.Established => 2 }

/-- Oracle record whose rate limiter reports a stray handshake response. -/
def extHR : Ext :=
  { ext0 with verify_packet := fun _ => VerifyRes.ok Packet.HandshakeResponse }

/-- Oracle record whose rate limiter demands a cookie round trip. -/
def extCk : Ext :=
  { ext0 with verify_packet := fun _ => VerifyRes.cookie [5, 6, 7, 8] }

/-- The handshake recovered by `extRes`: peer static key all-2s, with an
additional-data block. -/
def vh6 : ValidHandshake :=
  { peer_static_public := List.replicate 32 2, additional_data := some [0] }

/-- Oracle record driving the resumption path: a valid handshake init
whose additional data carries `PrevSessIndex = 1` and no authenticator. -/
def extRes : Ext :=
  { ext0 with
    verify_packet := fun _ => VerifyRes.ok (Packet.HandshakeInit 0),
    parse_handshake_anon := fun _ => some vh6,
    parse_additional_data := fun _ =>
      Except.ok { cjdns_psk := none, prev_sess_id := some 1 } }

/-- A mutable initiator state with stale additional data and nothing to
serialize, used to evaluate `update_additional` on a concrete input. -/
def mStale : InitiatorSessionMut :=
  { auth := none, peer_recv_index := none, additional_data := [1, 2, 3] }

theorem alGet_alInsert_self [DecidableEq κ] (m : List (κ × α)) (k : κ) (v : α) :
    alGet (alInsert m k v).2 k = some v := by
  induction m with
  | nil => simp [alGet, alInsert]
  | cons kv rest ih =>
    by_cases h : kv.1 = k
    · simp [alGet, alInsert, h]
    · simp [alGet, alInsert, h, ih]

theorem alGet_alInsert_ne [DecidableEq κ] (m : List (κ × α)) (k k' : κ) (v : α)
    (h : k ≠ k') : alGet (alInsert m k v).2 k' = alGet m k' := by
  induction m with
  | nil => simp [alGet, alInsert, h]
  | cons kv rest ih =>
    by_cases hk : kv.1 = k
    · simp [alGet, alInsert, hk, h]
    · simp [alGet, alInsert, hk, ih]

theorem alGet_alInsert_isSome [DecidableEq κ] (m : List (κ × α)) (k : κ) (v w : α)
    (hk : alGet m k = some w) (k' : κ) :
    (alGet (alInsert m k v).2 k').isSome = (alGet m k').isSome := by
  induction m with
  | nil => simp [alGet] at hk
  | cons kv rest ih =>
    by_cases h : kv.1 = k
    · by_cases h' : kv.1 = k' <;> simp [alGet, alInsert, h, h', alGet_alInsert_self]
      · rw [← h, h']
        simp [alGet_alInsert_self]
      · rw [← h] at *
        simp [alGet, h']
    · simp [alGet, alInsert, h] at hk ⊢
      by_cases h' : kv.1 = k' <;> simp [alGet, h', ih hk]

theorem pad4_length (b : List Nat) : (pad4 b).length % 4 = 0 := by
  simp only [pad4, List.length_append, List.length_replicate]
  omega

/-- C1: the claim says `registry.sessions[s.id]` is `s` and that dropping
`s` removes exactly its own entry.  The code violates it: `new0` inserts
the inner state under the allocated index (here 1) but never assigns that
index to `s.id`, which stays at the `0xffffffff` sentinel from `new1`;
`Drop` therefore removes the absent key `0xffffffff`, leaving the
registry unchanged and the session's real entry in place. -/
theorem c1_registry_linkage_code_bug :
    new0 ext0 2 ca0 pk1 "s" true false = Except.ok (sessA, 1, caA)
    ∧ sessA.id = 0xffffffff
    ∧ sessA.id ≠ 1
    ∧ alGet caA.sessions 1 = some sessA.inner
    ∧ alGet caA.sessions sessA.id = none
    ∧ sessionDrop caA sessA = caA
    ∧ alGet (sessionDrop caA sessA).sessions 1 = some sessA.inner := by
  refine ⟨rfl, rfl, by decide, rfl, by decide, rfl, rfl⟩

/-- C2: `Session::new1` rejects the all-zero key and every key whose
derived address does not begin with `0xfc`; every session it returns has
`her_ip6` equal to the derivation of `her_pubkey`, starting with `0xfc`. -/
theorem c2_new1_key_validation (ext : Ext) (pk : List Nat) (dn : String)
    (ii ra : Bool) (idx : Nat) :
    (pk = List.replicate 32 0 →
      new1 ext pk dn ii ra idx = Except.error (Err.other
        "in order to create a noise session, the public key of the other party must be known"))
    ∧ (pk ≠ List.replicate 32 0 → (ext.ip6_from_key pk).getD 0 0 ≠ 0xfc →
      new1 ext pk dn ii ra idx = Except.error (Err.other "invalid public key"))
    ∧ (∀ s, new1 ext pk dn ii ra idx = Except.ok s →
      s.her_ip6 = ext.ip6_from_key s.her_pubkey ∧ s.her_ip6.getD 0 0 = 0xfc) := by
  refine ⟨?_, ?_, ?_⟩
  · intro h
    simp only [new1]
    rw [if_pos h]
  · intro h1 h2
    simp only [new1]
    rw [if_neg h1, if_pos h2]
  · intro s hs
    simp only [new1] at hs
    by_cases h0 : pk = List.replicate 32 0
    · rw [if_pos h0] at hs
      exact Except.noConfusion hs
    · rw [if_neg h0] at hs
      by_cases h1 : (ext.ip6_from_key pk).getD 0 0 = 0xfc
      · rw [if_neg (not_not_intro h1)] at hs
        cases htn : ext.tunn_new idx with
        | error e =>
          rw [htn] at hs
          exact Except.noConfusion hs
        | ok t =>
          rw [htn] at hs
          injection hs with hs
          subst hs
          exact ⟨rfl, h1⟩
      · rw [if_pos h1] at hs
        exact Except.noConfusion hs

/-- C2 witness: a key whose derived address starts with `0x00` is
rejected by `new1`. -/
theorem c2_new1_key_validation_witness :
    new1 extBadIp pk1 "d" true false 3 = Except.error (Err.other "invalid public key") :=
  (c2_new1_key_validation extBadIp pk1 "d" true false 3).2.1 (by decide) (by decide)

/-- C4: on the handshake-init path, a rate-limiter verdict other than a
cookie is `InvalidPacket`; an admitted `HandshakeResponse` or
`CookieReply` is `StrayKey`; an admitted `PacketData` is `NoSession`. -/
theorem c4_init_path_rejections (ext : Ext) (fuel : Nat) (ca : CryptoNoise)
    (msg : List Nat) (ra : Bool) :
    (ext.verify_packet msg = VerifyRes.err →
      handle_init_msg ext fuel ca msg ra = Except.error (Err.decrypt DecryptErr.InvalidPacket))
    ∧ (ext.verify_packet msg = VerifyRes.ok Packet.HandshakeResponse →
      handle_init_msg ext fuel ca msg ra = Except.error (Err.decrypt DecryptErr.StrayKey))
    ∧ (ext.verify_packet msg = VerifyRes.ok Packet.PacketCookieReply →
      handle_init_msg ext fuel ca msg ra = Except.error (Err.decrypt DecryptErr.StrayKey))
    ∧ (ext.verify_packet msg = VerifyRes.ok Packet.PacketData →
      handle_init_msg ext fuel ca msg ra = Except.error (Err.decrypt DecryptErr.NoSession)) :=
  ⟨fun h => by simp [handle_init_msg, h],
   fun h => by simp [handle_init_msg, h],
   fun h => by simp [handle_init_msg, h],
   fun h => by simp [handle_init_msg, h]⟩

/-- C4 witness: a stray handshake response is rejected with `StrayKey`. -/
theorem c4_init_path_rejections_witness :
    handle_init_msg extHR 1 ca0 [] false = Except.error (Err.decrypt DecryptErr.StrayKey) :=
  (c4_init_path_rejections extHR 1 ca0 [] false).2.1 rfl

/-- C8: the plaintext endpoint rejects an empty buffer and a buffer whose
length is not a multiple of 4, emitting nothing on the ciphertext
endpoint (the effect list is empty). -/
theorem c8_plaintext_validation (ext : Ext) (inner : SessionInner) (msg : List Nat) :
    (msg.length = 0 →
      plaintextRecv ext inner msg =
        ([], Except.error (Err.other "Zero-length message is prohibited")))
    ∧ (msg.length % 4 ≠ 0 →
      plaintextRecv ext inner msg = ([], Except.error (Err.other "Alignment fault"))) := by
  constructor
  · intro h; simp [plaintextRecv, h]
  · intro h
    have h0 : msg.length ≠ 0 := by omega
    simp [plaintextRecv, h0, h]

/-- C8 witness: a 3-byte plaintext is rejected as misaligned, with no
ciphertext emitted. -/
theorem c8_plaintext_validation_witness :
    plaintextRecv ext0 innerA [1, 2, 3] = ([], Except.error (Err.other "Alignment fault")) :=
  (c8_plaintext_validation ext0 innerA [1, 2, 3]).2 (by decide)

/-- C9: every rewrite of the additional-data block produces a length that
is a multiple of 4; with neither an authenticator nor a peer
receive-index the block is empty; and at creation an initiator session
starts with the empty block. -/
theorem c9_additional_data_aligned :
    (∀ m : InitiatorSessionMut, (update_additional m).additional_data.length % 4 = 0)
    ∧ (∀ m : InitiatorSessionMut, m.auth = none → m.peer_recv_index = none →
      (update_additional m).additional_data = [])
    ∧ (∀ (ext : Ext) (pk : List Nat) (dn : String) (ra : Bool) (idx : Nat) (s : Session),
      new1 ext pk dn true ra idx = Except.ok s →
      s.inner.initiator = some
        { m := { auth := none, peer_recv_index := none, additional_data := [] },
          peer_recv_index_atomic := 2 ^ 64 - 1 }) := by
  refine ⟨?_, ?_, ?_⟩
  · intro m
    cases hpi : m.peer_recv_index with
    | none =>
      cases ha : m.auth with
      | none => simp [update_additional, hpi, ha]
      | some ch =>
        simp only [update_additional, hpi, ha]
        have hlen : (pushCjdnsPsk ch []).length > 0 := by simp [pushCjdnsPsk]
        simp only [hlen, if_pos]
        exact pad4_length _
    | some pi =>
      cases ha : m.auth with
      | none =>
        simp only [update_additional, hpi, ha]
        have hlen : (pushPrevSessIndex pi []).length > 0 := by
          simp [pushPrevSessIndex, be32]
        simp only [hlen, if_pos]
        exact pad4_length _
      | some ch =>
        simp only [update_additional, hpi, ha]
        have hlen : (pushCjdnsPsk ch (pushPrevSessIndex pi [])).length > 0 := by
          simp [pushCjdnsPsk, pushPrevSessIndex, be32]
        simp only [hlen, if_pos]
        exact pad4_length _
  · intro m ha hpi
    simp [update_additional, ha, hpi]
  · intro ext pk dn ra idx s hs
    simp only [new1] at hs
    by_cases h0 : pk = List.replicate 32 0
    · rw [if_pos h0] at hs
      exact Except.noConfusion hs
    · rw [if_neg h0] at hs
      by_cases h1 : (ext.ip6_from_key pk).getD 0 0 = 0xfc
      · rw [if_neg (not_not_intro h1)] at hs
        cases htn : ext.tunn_new idx with
        | error e =>
          rw [htn] at hs
          exact Except.noConfusion hs
        | ok t =>
          rw [htn] at hs
          injection hs with hs
          subst hs
          rfl
      · rw [if_pos h1] at hs
        exact Except.noConfusion hs

/-- C9 witness: with no authenticator and no peer index the rewritten
block is empty. -/
theorem c9_additional_data_aligned_witness :
    (update_additional mStale).additional_data = [] :=
  c9_additional_data_aligned.2.1 mStale rfl rfl

/-- C3 (amended): on a decapsulation error the buffer is re-framed with
`cjdns_from_wg` and replaced by exactly 28 bytes — but since
`Message::push` prepends, the four blocks appear in the reverse of the
claimed order: 4 bytes little-endian `e + 1024`, 16 bytes of ciphertext
prefix, 4 bytes big-endian `e + 1024`, 4 bytes big-endian session state.
The envelope goes to the plaintext endpoint, the call returns
`(Done, None)`, and the registry is untouched. -/
theorem c3_error_envelope (ext : Ext) (fuel : Nat) (ca : CryptoNoise)
    (msg msg1 msg2 : List Nat) (wg : WgRes) (i : Nat) (sess : SessionInner)
    (e : Nat) (ra : Bool)
    (h1 : ext.wg_from_cjdns msg = Except.ok (wg, msg1))
    (h2 : wg.our_index = some i)
    (h3 : alGet ca.sessions i = some sess)
    (h4 : ext.decapsulate sess.tunnel msg1 = TunnResult.Err e)
    (h5 : ext.cjdns_from_wg msg1 = Except.ok msg2)
    (h6 : 16 ≤ msg2.length) :
    handle_incoming ext fuel ca msg ra =
      ([Effect.plainSend (errEnvelope (ext.state_code (get_state sess)) e msg2)],
       Except.ok (TryMsgReply.Done, none,
         errEnvelope (ext.state_code (get_state sess)) e msg2, ca))
    ∧ (errEnvelope (ext.state_code (get_state sess)) e msg2).length = 28
    ∧ errEnvelope (ext.state_code (get_state sess)) e msg2 =
      le32 (e % 2 ^ 32 + 1024) ++ msg2.take 16
        ++ be32 (e % 2 ^ 32 + 1024) ++ be32 (ext.state_code (get_state sess)) := by
  refine ⟨?_, ?_, rfl⟩
  · simp only [handle_incoming, h1, h2, h3, h4, h5]
    rw [if_neg (by omega)]
  · simp only [errEnvelope, le32, be32, List.length_append, List.length_take,
      List.length_cons, List.length_nil]
    omega

/-- C3 counterexample: at a concrete decapsulation error the buffer the
code builds is not the envelope the claim describes (big-endian state
first); the blocks are in the reverse order. -/
theorem c3_error_envelope_counterexample :
    handle_incoming ext3 1 caA [0] false =
      ([Effect.plainSend (errEnvelope 7 1 (List.replicate 16 9))],
       Except.ok (TryMsgReply.Done, none, errEnvelope 7 1 (List.replicate 16 9), caA))
    ∧ errEnvelope 7 1 (List.replicate 16 9) ≠
      specErrorEnvelope 7 (1 + 1024) (List.replicate 16 9) :=
  ⟨rfl, by decide⟩

/-- C3 witness: the amended envelope shape at a concrete error. -/
theorem c3_error_envelope_witness :
    handle_incoming ext3 1 caA [0] false =
      ([Effect.plainSend (errEnvelope 7 1 (List.replicate 16 9))],
       Except.ok (TryMsgReply.Done, none, errEnvelope 7 1 (List.replicate 16 9), caA)) :=
  (c3_error_envelope ext3 1 caA [0] [0] (List.replicate 16 9)
    { our_index := some 1, peer_index := none, msg_type := 4 } 1 innerA 1 false
    rfl rfl rfl rfl rfl (by decide)).1

/-- C5: when the rate limiter answers with a cookie, `handle_init_msg`
returns the cookie as the buffer and no session, and `handle_incoming`
surfaces `(ReplyToPeer, None)` with the registry unchanged. -/
theorem c5_cookie_under_load (ext : Ext) (fuel : Nat) (ca : CryptoNoise)
    (msg msg1 c c2 : List Nat) (wg : WgRes) (ra : Bool)
    (hv : ext.verify_packet msg1 = VerifyRes.cookie c) :
    handle_init_msg ext fuel ca msg1 ra = Except.ok (none, c, ca)
    ∧ (ext.wg_from_cjdns msg = Except.ok (wg, msg1) → wg.our_index = none →
      ext.cjdns_from_wg c = Except.ok c2 → c2.length % 4 = 0 →
      handle_incoming ext fuel ca msg ra =
        ([], Except.ok (TryMsgReply.ReplyToPeer, none, c2, ca))) := by
  have hinit : handle_init_msg ext fuel ca msg1 ra = Except.ok (none, c, ca) := by
    simp only [handle_init_msg, hv]
  refine ⟨hinit, ?_⟩
  intro hw ho hc hal
  simp only [handle_incoming, hw, ho, hinit, hc]
  rw [if_neg (not_not_intro hal)]

/-- C5 witness: a concrete cookie reply creates no session and is
surfaced as `ReplyToPeer` with the registry unchanged. -/
theorem c5_cookie_under_load_witness :
    handle_incoming extCk 1 ca0 [1, 2] false =
      ([], Except.ok (TryMsgReply.ReplyToPeer, none, [5, 6, 7, 8], ca0)) :=
  (c5_cookie_under_load extCk 1 ca0 [1, 2] [1, 2] [5, 6, 7, 8] [5, 6, 7, 8]
    { our_index := none, peer_index := none, msg_type := 0 } false rfl).2
    rfl rfl rfl (by decide)

/-- C6: when a handshake init resolves a `PrevSessIndex` to a registered
session, a differing permanent key fails with `WrongPermPubkey`; with the
same key the session is reused — any successful outcome returns no new
session and leaves the registry's key set unchanged. -/
theorem c6_resumption (ext : Ext) (fuel : Nat) (ca : CryptoNoise) (msg : List Nat)
    (ra : Bool) (d : Nat) (vh : ValidHandshake) (uopt : Option User) (psi : Nat)
    (s : SessionInner)
    (h1 : ext.verify_packet msg = VerifyRes.ok (Packet.HandshakeInit d))
    (h2 : ext.parse_handshake_anon (Packet.HandshakeInit d) = some vh)
    (h3 : resolveUser ext ca vh = Except.ok (uopt, some psi))
    (h4 : (uopt.isNone && ra) = false)
    (h5 : alGet ca.sessions psi = some s) :
    (s.her_pubkey ≠ vh.peer_static_public →
      handle_init_msg ext fuel ca msg ra =
        Except.error (Err.decrypt DecryptErr.WrongPermPubkey))
    ∧ (s.her_pubkey = vh.peer_static_public →
      ∀ (os : Option Session) (buf : List Nat) (ca2 : CryptoNoise),
        handle_init_msg ext fuel ca msg ra = Except.ok (os, buf, ca2) →
        os = none ∧ ∀ k, (alGet ca2.sessions k).isSome = (alGet ca.sessions k).isSome) := by
  have hstep : ∀ osess,
      resolveSess ca (some psi) vh = Except.ok osess →
      handle_init_msg ext fuel ca msg ra =
        finishInit ext fuel ca (Packet.HandshakeInit d) vh uopt osess ra := by
    intro osess hrs
    simp only [handle_init_msg, h1, h2, h3, h4, Bool.false_eq_true, if_false, hrs]
  constructor
  · intro hne
    simp only [handle_init_msg, h1, h2, h3, h4, Bool.false_eq_true, if_false,
      resolveSess, h5]
    rw [if_pos hne]
  · intro heq os buf ca2 hok
    have hrs : resolveSess ca (some psi) vh = Except.ok (some (psi, s)) := by
      simp only [resolveSess, h5]
      rw [if_neg (not_not_intro heq)]
    rw [hstep (some (psi, s)) hrs] at hok
    cases hap : applyUserPsk uopt s with
    | error e =>
      simp only [finishInit, finishGo, hap] at hok
      exact Except.noConfusion hok
    | ok inner2 =>
      simp only [finishInit, finishGo, hap] at hok
      cases hv : ext.handle_verified_packet inner2.tunnel (Packet.HandshakeInit d) vh with
      | WriteToNetwork p =>
        simp only [hv, Except.ok.injEq, Prod.mk.injEq] at hok
        obtain ⟨ho, _, hca⟩ := hok
        refine ⟨ho.symm, fun k => ?_⟩
        rw [← hca]
        exact alGet_alInsert_isSome ca.sessions psi inner2 s h5 k
      | Done =>
        simp only [hv] at hok
        exact Except.noConfusion hok
      | Err e =>
        simp only [hv] at hok
        exact Except.noConfusion hok
      | CustomData b =>
        simp only [hv] at hok
        exact Except.noConfusion hok
      | WriteToTunnelV4 =>
        simp only [hv] at hok
        exact Except.noConfusion hok
      | WriteToTunnelV6 =>
        simp only [hv] at hok
        exact Except.noConfusion hok

/-- C6 witness: a resumed index whose registered session holds a
different permanent key is rejected with `WrongPermPubkey`. -/
theorem c6_resumption_witness :
    handle_init_msg extRes 1 caA [] false =
      Except.error (Err.decrypt DecryptErr.WrongPermPubkey) :=
  (c6_resumption extRes 1 caA [] false 0 vh6 none 1 innerA
    rfl rfl rfl rfl rfl).1 (by decide)

/-- C7: `add_user_ipv6` with a login inserts a type-One entry under the
(empty-login, password) challenge and a type-Two entry under the
(login, password) challenge, and each lookup returns the secret derived
alongside the challenge. -/
theorem c7_add_user (ext : Ext) (ca : CryptoNoise) (pw lg : List Nat)
    (ip6 : Option (List Nat)) (s1 c1 s2 c2 : List Nat)
    (h1 : compute_auth ext (some pw) none = (some s1, some c1))
    (h2 : compute_auth ext (some pw) (some lg) = (some s2, some c2))
    (hne : c1 ≠ c2) :
    get_auth (add_user_ipv6 ext ca pw (some lg) ip6) c1 =
      some { secret := s1, login := lg, restricted_to_ip6 := ip6 }
    ∧ get_auth (add_user_ipv6 ext ca pw (some lg) ip6) c2 =
      some { secret := s2, login := lg, restricted_to_ip6 := ip6 } := by
  simp only [add_user_ipv6, get_auth, h1, h2, Option.isSome_some, if_pos,
    Option.getD_some]
  constructor
  · rw [alGet_alInsert_ne _ _ _ _ (Ne.symm hne), alGet_alInsert_self]
  · rw [alGet_alInsert_self]

/-- C7 witness: with a tagging hasher, both the type-One and the
type-Two entries are retrievable and carry the derived secret. -/
theorem c7_add_user_witness :
    get_auth (add_user_ipv6 ext0 ca0 [7] (some [5]) none) [1, 7] =
      some { secret := [7], login := [5], restricted_to_ip6 := none } :=
  (c7_add_user ext0 ca0 [7] [5] none [7] [1, 7] [7, 5] [2, 5, 7]
    rfl rfl (by decide)).1

/-- C10: the session's own ciphertext endpoint rejects packets shorter
than 16 bytes with `Runt`; any dispatch that would surface a new session
is turned into an error (the session is not surfaced); success happens
only when the dispatcher answered `(Done, None)` or `(ReplyToPeer, None)`. -/
theorem c10_ciphertext_recv (ext : Ext) (fuel : Nat) (inner : SessionInner)
    (ca : CryptoNoise) (m : List Nat) :
    (m.length < 16 →
      ciphertextRecv ext fuel inner ca m = ([], Except.error (Err.decrypt DecryptErr.Runt)))
    ∧ (∀ effs r s buf ca2, 16 ≤ m.length →
      handle_incoming ext fuel ca (m.drop 16) inner.require_auth =
        (effs, Except.ok (r, some s, buf, ca2)) →
      (ciphertextRecv ext fuel inner ca m).2 = Except.error (Err.other
        "DROP packet associated with existing session trying to create a new one"))
    ∧ (∀ ca2, (ciphertextRecv ext fuel inner ca m).2 = Except.ok ca2 →
      ∃ effs buf ca3,
        handle_incoming ext fuel ca (m.drop 16) inner.require_auth =
          (effs, Except.ok (TryMsgReply.Done, none, buf, ca3))
        ∨ handle_incoming ext fuel ca (m.drop 16) inner.require_auth =
          (effs, Except.ok (TryMsgReply.ReplyToPeer, none, buf, ca3))) := by
  refine ⟨?_, ?_, ?_⟩
  · intro h
    simp [ciphertextRecv, h]
  · intro effs r s buf ca2 hge hhi
    have hnl : ¬ m.length < 16 := by omega
    have hcv : ciphertextRecv ext fuel inner ca m = (effs, Except.error (Err.other
        "DROP packet associated with existing session trying to create a new one")) := by
      simp only [ciphertextRecv]
      rw [if_neg hnl, hhi]
    rw [hcv]
  · intro ca2 hok
    by_cases hl : m.length < 16
    · have hcv : ciphertextRecv ext fuel inner ca m =
          ([], Except.error (Err.decrypt DecryptErr.Runt)) := by
        simp [ciphertextRecv, hl]
      rw [hcv] at hok
      exact Except.noConfusion hok
    · rcases hhi : handle_incoming ext fuel ca (m.drop 16) inner.require_auth with ⟨effs, res⟩
      cases res with
      | error e =>
        have hcv : ciphertextRecv ext fuel inner ca m = (effs, Except.error e) := by
          simp only [ciphertextRecv]
          rw [if_neg hl, hhi]
        rw [hcv] at hok
        exact Except.noConfusion hok
      | ok t =>
        obtain ⟨r, os, buf, ca3⟩ := t
        cases os with
        | some s =>
          have hcv : ciphertextRecv ext fuel inner ca m = (effs, Except.error (Err.other
              "DROP packet associated with existing session trying to create a new one")) := by
            simp only [ciphertextRecv]
            rw [if_neg hl, hhi]
          rw [hcv] at hok
          exact Except.noConfusion hok
        | none =>
          cases r with
          | Done => exact ⟨effs, buf, ca3, Or.inl rfl⟩
          | ReplyToPeer => exact ⟨effs, buf, ca3, Or.inr rfl⟩
          | RecvPlaintext =>
            have hcv : ciphertextRecv ext fuel inner ca m =
                (effs, Except.error (Err.other "Unexpected reply")) := by
              simp only [ciphertextRecv]
              rw [if_neg hl, hhi]
            rw [hcv] at hok
            exact Except.noConfusion hok
          | Error =>
            have hcv : ciphertextRecv ext fuel inner ca m =
                (effs, Except.error (Err.other "Unexpected reply")) := by
              simp only [ciphertextRecv]
              rw [if_neg hl, hhi]
            rw [hcv] at hok
            exact Except.noConfusion hok

/-- C10 witness: an empty packet on the ciphertext endpoint fails with
`Runt`. -/
theorem c10_ciphertext_recv_witness :
    ciphertextRecv ext0 0 innerA ca0 [] = ([], Except.error (Err.decrypt DecryptErr.Runt)) :=
  (c10_ciphertext_recv ext0 0 innerA ca0 []).1 (by decide)

end CjdnsNoise
